import Mathlib

/-!
Verification of the placement and routing logic of the GLIMS Cobas
validation data processor (src/cobas_validation_data_processor.py and
src/excel_csv_handler.py), as a shallow embedding in Lean.

Strings are modelled with Lean's String (a structure over List Char);
Python string helpers (lower, strip, substring containment,
str.replace with one-character pattern) are given explicit
list-of-characters definitions so that all theorems can be evaluated by
the kernel.  An Excel workbook is modelled as a structure of total
functions giving the sheet list, sheet dimensions, and the (optional)
string value of each cell; dates are modelled as naturals (the dateutil
parser is an external collaborator and appears only as an
already-parsed Option-valued field).  Fallible code paths (Python
exceptions) are modelled with Except.
-/

deriving instance DecidableEq for Except

/-! ### Constants from the source -/

def C_MODULE_SHEET_INDEX : Nat := 0

def E_MODULE_SHEET_INDEX : Nat := 1

def C_MODULE_BASE_OFFSET_8000 : Nat := 8

def C_MODULE_BASE_OFFSET_PRO : Nat := 9

def E_MODULE_BASE_OFFSET_8000 : Nat := 14

def E_MODULE_BASE_OFFSET_PRO : Nat := 15

def DEFAULT_TESTRUN_OFFSET : Nat := 40

def REPRO_FIRST_DATA_ROW : Nat := 3

def REPRO_HEADER_ROW : Nat := 2

def EXCEL_ROW_START : Nat := 2

/-! ### String helpers (Python primitives) -/

/-- Python str.lower (ASCII case folding, as Lean's Char.toLower). -/
def strLower (s : String) : String :=
  String.mk (s.data.map Char.toLower)

/-- Python str.strip: drop leading and trailing whitespace. -/
def strStrip (s : String) : String :=
  String.mk (((s.data.dropWhile Char.isWhitespace).reverse.dropWhile
    Char.isWhitespace).reverse)

/-- Does the character list start with the given pattern list? -/
def startsWithChars : List Char → List Char → Bool
  | [], _ => true
  | _ :: _, [] => false
  | c :: cs, d :: ds => c == d && startsWithChars cs ds

/-- Does the pattern occur contiguously in the character list? -/
def hasSubChars (pat : List Char) : List Char → Bool
  | [] => pat.isEmpty
  | d :: ds => startsWithChars pat (d :: ds) || hasSubChars pat ds

/-- Python membership test  sub in s  on strings (substring containment). -/
def strContains (s sub : String) : Bool :=
  hasSubChars sub.data s.data

/-- Python  str.replace with a one-character pattern, as used in the two
value-conversion snippets: every full stop becomes a comma
(process_skml lines 370-375 and update_repro_row lines 519-524). -/
def convertDecimal (s : String) : String :=
  String.mk (s.data.map (fun c => if c == '.' then ',' else c))

/-! ### Configuration (config_data.json, loaded by load_config) -/

/-- The configuration tables loaded from config_data.json.  The file
itself is not part of the repository, so the tables are kept abstract:
every theorem quantifies over the configuration. -/
structure Config where
  offset_map : List (String × Nat)
  pro_stations : List String
  test_mnemonics_c : List String
  test_mnemonics_e : List String
  qc_material_low : List String
  qc_material_high : List String
  qc_material_pro_low : List String
  qc_material_pro_high : List String
  skip_hiv : List String

/-! ### Workbook model -/

/-- An openpyxl workbook: the ordered sheet-name list, per-sheet
dimensions, and the optional string value of every cell (1-based row and
column indices, as in openpyxl). -/
structure Workbook where
  sheetnames : List String
  maxRow : String → Nat
  maxColumn : String → Nat
  cells : String → Nat → Nat → Option String

/-- openpyxl emptiness test used by update_excel_cell:
cell.value in (None, ''). -/
def cellIsEmpty : Option String → Bool
  | none => true
  | some v => v == ""

/-- ExcelCsvHandler.update_excel_cell: write the value only when the
sheet exists and the target cell holds no non-empty value, and then mark
the cell.  The Bool records whether the cell was actually set (the
Python method returns None; the flag is the observable effect used by
the theorems). -/
def update_excel_cell (wb : Workbook) (sheet_name : String) (row col : Nat)
    (value : String) : Workbook × Bool :=
  if sheet_name ∈ wb.sheetnames then
    if cellIsEmpty (wb.cells sheet_name row col) then
      ({ wb with cells := fun s r c =>
          if s = sheet_name ∧ r = row ∧ c = col then some value
          else wb.cells s r c }, true)
    else (wb, false)
  else (wb, false)

/-! ### Non-reproducibility placement -/

/-- get_testrun_column_offset: look the testrun up in the offset map and
fall back to DEFAULT_TESTRUN_OFFSET with a warning (the csv_row_index
argument of the source only feeds the warning text and is dropped). -/
def get_testrun_column_offset (offset_map : List (String × Nat))
    (testrun : String) : Nat :=
  match offset_map.lookup testrun with
  | some off => off
  | none => DEFAULT_TESTRUN_OFFSET

/-- get_sheet_and_column_base: case-insensitive membership of the
mnemonic in the chemistry list, then the immunoassay list; the base
column depends on whether the patient id contains the substring 8000.
The source's test_codes_map dict is passed as its two lists. -/
def get_sheet_and_column_base (mnemonic patient_id : String)
    (c_codes e_codes : List String) : Option (Nat × Nat) :=
  let ml := strLower mnemonic
  if ml ∈ c_codes.map strLower then
    some (C_MODULE_SHEET_INDEX,
      if strContains patient_id "8000" then C_MODULE_BASE_OFFSET_8000
      else C_MODULE_BASE_OFFSET_PRO)
  else if ml ∈ e_codes.map strLower then
    some (E_MODULE_SHEET_INDEX,
      if strContains patient_id "8000" then E_MODULE_BASE_OFFSET_8000
      else E_MODULE_BASE_OFFSET_PRO)
  else none

/-- find_test_row_in_worksheet: scan rows 2..max_row of the sheet for a
row whose column-B cell is truthy and, stripped and lowered, equals the
lowered mnemonic. -/
def find_test_row_in_worksheet (wb : Workbook) (sheet_name mnemonic : String) :
    Option Nat :=
  (List.range' EXCEL_ROW_START (wb.maxRow sheet_name - 1)).find? (fun r =>
    match wb.cells sheet_name r 2 with
    | none => false
    | some v => !(v == "") && (strLower (strStrip v) == strLower mnemonic))

/-- The per-field body of the process_skml loop (lines 344-391): skip
placeholder values, resolve sheet and base column, locate the test row,
convert the decimal separator and write.  Field values are paired
positionally with the header mnemonics.  A sheet index outside the
workbook is the Python IndexError. -/
def process_skml_fields (cfg : Config) (patient_id : String) (off : Nat) :
    List (String × Option String) → Workbook → Except String Workbook
  | [], wb => Except.ok wb
  | (mnem, v) :: rest, wb =>
    if v = none ∨ v = some "-" then process_skml_fields cfg patient_id off rest wb
    else
      match get_sheet_and_column_base mnem patient_id
          cfg.test_mnemonics_c cfg.test_mnemonics_e with
      | none => process_skml_fields cfg patient_id off rest wb
      | some (ws_idx, base) =>
        match wb.sheetnames.get? ws_idx with
        | none => Except.error "IndexError: worksheets"
        | some sheet_name =>
          match find_test_row_in_worksheet wb sheet_name mnem with
          | none => process_skml_fields cfg patient_id off rest wb
          | some row =>
            match v with
            | none => process_skml_fields cfg patient_id off rest wb
            | some raw =>
              let wb2 := (update_excel_cell wb sheet_name row (base + off)
                (convertDecimal raw)).1
              process_skml_fields cfg patient_id off rest wb2

/-- One data row of process_skml (lines 334-404): lower the testrun id;
when it is not a key of the offset map the whole row is skipped with a
warning (lines 338-342), otherwise every field is placed with the
looked-up offset. -/
def process_skml_row (cfg : Config) (wb : Workbook)
    (test_mnemonics : List String) (patient_id testrun_raw : String)
    (values : List (Option String)) : Except String Workbook :=
  let testrun_id := strLower testrun_raw
  match cfg.offset_map.lookup testrun_id with
  | none => Except.ok wb
  | some off =>
    process_skml_fields cfg patient_id off (test_mnemonics.zip values) wb

/-! ### Reproducibility measurements -/

/-- One collected QC measurement: the source list
[measurement_datetime, value, qc_material, analyser], with the parsed
date modelled as a natural number. -/
structure Meas where
  ts : Nat
  value : String
  qc_material : String
  analyser : String
deriving DecidableEq

/-- The sort key comparison of write_repro_results line 683
(measurements.sort(key=lambda x: x[0])). -/
def measLE : Meas → Meas → Prop := fun a b => a.ts ≤ b.ts

instance : DecidableRel measLE := fun a b => Nat.decLe a.ts b.ts

instance : IsTotal Meas measLE := ⟨fun a b => Nat.le_total a.ts b.ts⟩

instance : IsTrans Meas measLE := ⟨fun _ _ _ h1 h2 => Nat.le_trans h1 h2⟩

/-- Python's list.sort is a stable ascending sort; insertion sort with
the non-strict key comparison is the (unique) stable sort, so it is the
embedding of measurements.sort(key=lambda x: x[0]). -/
def sortMeas (l : List Meas) : List Meas :=
  List.insertionSort measLE l

/-- One data row of the reproducibility CSV: parsed date (none when
dateutil raises ParserError), QC material, analyser, and the positional
test-result values. -/
structure ReproRow where
  date : Option Nat
  qc_material : String
  analyser : String
  values : List (Option String)

/-- The inner value loop of build_repro_measurements (lines 610-615):
non-placeholder values are appended, in column order, to the list of the
mnemonic at the same position. -/
def add_repro_values (d : Nat) (qc an : String) :
    List (String × Option String) → (String → List Meas) → String → List Meas
  | [], acc => acc
  | (mnem, v) :: rest, acc =>
    match v with
    | none => add_repro_values d qc an rest acc
    | some s =>
      if s = "-" then add_repro_values d qc an rest acc
      else add_repro_values d qc an rest
        (fun k => if k = mnem then acc k ++ [Meas.mk d s qc an] else acc k)

/-- The per-row body of build_repro_measurements (lines 588-615): skip
rows with unparseable dates, rows whose QC material is in the skip set,
and (under the analyser filter) rows whose analyser lacks the PRO-n
token. -/
def build_repro_step (skip_hiv : List String) (is_pro : Bool)
    (analyser_number : Option Nat) (test_mnemonics : List String)
    (acc : String → List Meas) (row : ReproRow) : String → List Meas :=
  match row.date with
  | none => acc
  | some d =>
    if row.qc_material ∈ skip_hiv then acc
    else
      match analyser_number with
      | some n =>
        if is_pro ∧ strContains row.analyser ("PRO-" ++ Nat.repr n) = false
        then acc
        else add_repro_values d row.qc_material row.analyser
          (test_mnemonics.zip row.values) acc
      | none =>
        add_repro_values d row.qc_material row.analyser
          (test_mnemonics.zip row.values) acc

/-- build_repro_measurements: fold the per-row step over all CSV rows,
starting from the empty per-mnemonic lists. -/
def build_repro_measurements (skip_hiv : List String) (is_pro : Bool)
    (analyser_number : Option Nat) (test_mnemonics : List String)
    (rows : List ReproRow) : String → List Meas :=
  rows.foldl (build_repro_step skip_hiv is_pro analyser_number test_mnemonics)
    (fun _ => [])

/-! ### Reproducibility sheet resolution -/

/-- determine_repro_sheet (lines 407-456).  Quotes in the two error
messages are dropped; otherwise the decision order is the source's:
interference materials branch on the analyser, then the Pro path checks
the low tier lists, the high tier lists, and the two substring markers,
and everything else (and the whole non-Pro path) raises. -/
def determine_repro_sheet (pro_validation : Bool) (cfg : Config)
    (qc_material analyser : String) : Except String String :=
  if qc_material ∈ ["VLK_Hemolyse", "VLK_Ict-V", "VLK_Lip-V"] then
    if analyser ∈ ["VLK_PRO-4_C503", "VLK_PRO-3_C503"] then
      Except.ok "REPRO controle 1"
    else if analyser ∈ ["VLK_PRO-4_C703", "VLK_PRO-3_C703"] then
      Except.ok "REPRO controle 2"
    else if analyser = "VLK_C500PRO-01" then
      Except.ok "REPRO controle 3"
    else
      Except.error ("Unknown analyser " ++ analyser ++
        " for special QC material: " ++ qc_material)
  else if pro_validation then
    if qc_material ∈ cfg.qc_material_pro_low ∨
        qc_material ∈ cfg.qc_material_low then
      Except.ok "REPRO controle 1"
    else if qc_material ∈ cfg.qc_material_pro_high ∨
        qc_material ∈ cfg.qc_material_high then
      Except.ok "REPRO controle 2"
    else if strContains qc_material "VLK_Bil" ∨
        strContains qc_material "VLK_Vrij" then
      Except.ok "REPRO controle 3"
    else
      Except.error ("Unknown QC material: " ++ qc_material)
  else
    Except.error "Non-Pro validation is deprecated"

/-- apply_hiv_sheet_override (lines 733-759): the four-entry dict
hiv_mappings looked up at (test_name, qc_material), defaulting to the
sheet determined by the tier logic. -/
def apply_hiv_sheet_override (test_name qc_material default_sheet : String) :
    String :=
  if test_name = "m_ahiv_eclia_ser" ∧ qc_material = "VLK_PC_HIV_3" then
    "REPRO controle 1"
  else if test_name = "m_hivag_eclia_ser" ∧ qc_material = "VLK_PC_HIV_3" then
    "REPRO controle 2"
  else if test_name = "m_ahiv_eclia_ser" ∧ qc_material = "VLK_PC_HIV_5" then
    "REPRO controle 2"
  else if test_name = "m_hivag_eclia_ser" ∧ qc_material = "VLK_PC_HIV_5" then
    "REPRO controle 1"
  else default_sheet

/-- The straight-line sheet resolution of one measurement inside
write_repro_results (lines 692-701): tier resolution, whose exception
propagates, followed by the HIV override. -/
def resolve_measurement_sheet (cfg : Config) (is_pro : Bool)
    (test_name qc_material analyser : String) : Except String String :=
  match determine_repro_sheet is_pro cfg qc_material analyser with
  | Except.error e => Except.error e
  | Except.ok s => Except.ok (apply_hiv_sheet_override test_name qc_material s)

/-- get_repro_test_column (lines 458-482): first column of the header
row whose value exists and equals the mnemonic case-insensitively. -/
def get_repro_test_column (wb : Workbook) (sheet_name mnemonic : String) :
    Option Nat :=
  (List.range' 1 (wb.maxColumn sheet_name)).find? (fun c =>
    match wb.cells sheet_name REPRO_HEADER_ROW c with
    | none => false
    | some v => strLower v == strLower mnemonic)

/-- update_repro_row (lines 484-532): skip when the sheet is missing or
the column is None, otherwise write the decimal-converted value through
update_excel_cell.  The Bool again records whether the cell was set. -/
def update_repro_row (wb : Workbook) (sheet_name : String) (row_index : Nat)
    (column_index : Option Nat) (m : Meas) : Workbook × Bool :=
  if sheet_name ∈ wb.sheetnames then
    match column_index with
    | none => (wb, false)
    | some col =>
      update_excel_cell wb sheet_name row_index col (convertDecimal m.value)
  else (wb, false)

/-- A successful cell write performed by the reproducibility emit loop:
destination sheet, row, column, and the measurement written there. -/
structure WriteRec where
  sheet : String
  row : Nat
  col : Nat
  meas : Meas
deriving DecidableEq

/-- The per-measurement loop of write_repro_results (lines 689-730):
resolve the sheet (exceptions propagate), look the column up in the
resolved sheet (accessing workbook[sheet_name], whose KeyError also
propagates), skip the measurement when the column is missing, and for
the two accumulating sheets write at the running counter and increment
it unconditionally.  Returns the workbook, the two final counters, and
the list of successful cell writes in emit order. -/
def write_repro_loop (cfg : Config) (is_pro : Bool) (test_name : String) :
    List Meas → Workbook → Nat → Nat →
    Except String (Workbook × Nat × Nat × List WriteRec)
  | [], wb, row1, row2 => Except.ok (wb, row1, row2, [])
  | m :: rest, wb, row1, row2 =>
    match resolve_measurement_sheet cfg is_pro test_name
        m.qc_material m.analyser with
    | Except.error e => Except.error e
    | Except.ok sheet_name =>
      if sheet_name ∈ wb.sheetnames then
        match get_repro_test_column wb sheet_name test_name with
        | none => write_repro_loop cfg is_pro test_name rest wb row1 row2
        | some col =>
          if sheet_name = "REPRO controle 1" then
            match update_repro_row wb sheet_name row1 (some col) m with
            | (wb2, wrote) =>
              match write_repro_loop cfg is_pro test_name rest wb2
                  (row1 + 1) row2 with
              | Except.error e => Except.error e
              | Except.ok (wb3, fin1, fin2, ws) =>
                Except.ok (wb3, fin1, fin2,
                  (if wrote then [WriteRec.mk sheet_name row1 col m] else [])
                    ++ ws)
          else if sheet_name = "REPRO controle 2" then
            match update_repro_row wb sheet_name row2 (some col) m with
            | (wb2, wrote) =>
              match write_repro_loop cfg is_pro test_name rest wb2
                  row1 (row2 + 1) with
              | Except.error e => Except.error e
              | Except.ok (wb3, fin1, fin2, ws) =>
                Except.ok (wb3, fin1, fin2,
                  (if wrote then [WriteRec.mk sheet_name row2 col m] else [])
                    ++ ws)
          else
            write_repro_loop cfg is_pro test_name rest wb row1 row2
      else Except.error ("KeyError: " ++ sheet_name)

/-- The body of write_repro_results for one mnemonic (lines 681-730):
stable chronological sort, then the emit walk with both counters
starting at REPRO_FIRST_DATA_ROW. -/
def write_repro_results_for (cfg : Config) (is_pro : Bool) (wb : Workbook)
    (test_name : String) (measurements : List Meas) :
    Except String (Workbook × Nat × Nat × List WriteRec) :=
  write_repro_loop cfg is_pro test_name (sortMeas measurements) wb
    REPRO_FIRST_DATA_ROW REPRO_FIRST_DATA_ROW

/-- The successful cell writes of an emit run (empty when the run was
halted by an exception). -/
def writesOf (r : Except String (Workbook × Nat × Nat × List WriteRec)) :
    List WriteRec :=
  match r with
  | Except.ok (_, _, _, ws) => ws
  | Except.error _ => []

/-- The final pair of running row counters of an emit run. -/
def countersOf (r : Except String (Workbook × Nat × Nat × List WriteRec)) :
    Nat × Nat :=
  match r with
  | Except.ok (_, a, b, _) => (a, b)
  | Except.error _ => (0, 0)

/-! ### Concrete instances used by witnesses and counterexamples -/

/-- A configuration with every table empty. -/
def cfgEmpty : Config :=
  { offset_map := [], pro_stations := [], test_mnemonics_c := [],
    test_mnemonics_e := [], qc_material_low := [], qc_material_high := [],
    qc_material_pro_low := [], qc_material_pro_high := [], skip_hiv := [] }

/-- A small configuration: one testrun, one chemistry mnemonic, one Pro
low-tier QC material, both HIV materials in the Pro high tier. -/
def cfgDemo : Config :=
  { offset_map := [("v_testrun1", 0)], pro_stations := [],
    test_mnemonics_c := ["k_alb"], test_mnemonics_e := [],
    qc_material_low := [], qc_material_high := [],
    qc_material_pro_low := ["QL"],
    qc_material_pro_high := ["VLK_PC_HIV_3", "VLK_PC_HIV_5"],
    skip_hiv := ["VLK_PC_HIV_2"] }

/-- A configuration whose Pro low tier holds the single entry VLK_Foo. -/
def cfgCase : Config :=
  { offset_map := [], pro_stations := [], test_mnemonics_c := [],
    test_mnemonics_e := [], qc_material_low := [], qc_material_high := [],
    qc_material_pro_low := ["VLK_Foo"], qc_material_pro_high := [],
    skip_hiv := [] }

/-- A workbook with one sheet and all cells empty. -/
def wbBlank : Workbook :=
  { sheetnames := ["Blad1"], maxRow := fun _ => 0, maxColumn := fun _ => 0,
    cells := fun _ _ _ => none }

/-- A workbook with the two accumulating REPRO sheets, whose header rows
hold the mnemonic T in column 1, and no data. -/
def wbRepro : Workbook :=
  { sheetnames := ["REPRO controle 1", "REPRO controle 2"],
    maxRow := fun _ => 0, maxColumn := fun _ => 1,
    cells := fun _ r c => if r = 2 ∧ c = 1 then some "T" else none }

/-- wbRepro with the first data cell of REPRO controle 1 already
occupied. -/
def wbReproOccupied : Workbook :=
  { sheetnames := ["REPRO controle 1", "REPRO controle 2"],
    maxRow := fun _ => 0, maxColumn := fun _ => 1,
    cells := fun s r c =>
      if r = 2 ∧ c = 1 then some "T"
      else if s = "REPRO controle 1" ∧ r = 3 ∧ c = 1 then some "X"
      else none }

/-- Three measurements of one low-tier material, two of them sharing a
timestamp. -/
def msDemo : List Meas :=
  [Meas.mk 5 "1.5" "QL" "a", Meas.mk 5 "2" "QL" "a", Meas.mk 4 "x" "QL" "a"]

/-- Two measurements of one low-tier material with distinct
timestamps. -/
def msTwo : List Meas :=
  [Meas.mk 1 "one" "QL" "a", Meas.mk 2 "two" "QL" "a"]

/-! ### Helper lemmas -/

theorem filter_ts_orderedInsert (a : Meas) (l : List Meas) (t : Nat) :
    (List.orderedInsert measLE a l).filter (fun x => x.ts == t) =
      if a.ts = t then a :: l.filter (fun x => x.ts == t)
      else l.filter (fun x => x.ts == t) := by
  induction l with
  | nil =>
    by_cases h : a.ts = t <;> simp [List.orderedInsert, List.filter_cons, h]
  | cons b l ih =>
    simp only [List.orderedInsert]
    by_cases hab : measLE a b
    · rw [if_pos hab]
      by_cases h : a.ts = t <;> simp [List.filter_cons, h]
    · rw [if_neg hab]
      have hb : b.ts < a.ts := Nat.lt_of_not_le hab
      by_cases h : a.ts = t
      · have hbt : ¬ b.ts = t := by omega
        simp [List.filter_cons, hbt, ih, h]
      · simp only [List.filter_cons, ih, if_neg h]

theorem filter_ts_sortMeas (l : List Meas) (t : Nat) :
    (sortMeas l).filter (fun x => x.ts == t) =
      l.filter (fun x => x.ts == t) := by
  induction l with
  | nil => rfl
  | cons a l ih =>
    simp only [sortMeas, List.insertionSort] at ih ⊢
    rw [filter_ts_orderedInsert, ih, List.filter_cons]
    by_cases h : a.ts = t <;> simp [h]

theorem filter_map_meas (p : Nat → Bool) (ws : List WriteRec) :
    (ws.filter (fun w => p w.meas.ts)).map WriteRec.meas =
      (ws.map WriteRec.meas).filter (fun x => p x.ts) := by
  induction ws with
  | nil => rfl
  | cons w ws ih =>
    by_cases h : p w.meas.ts <;> simp [List.filter_cons, h, ih]

theorem filter_and_sublist (P Q : WriteRec → Bool) (l : List WriteRec) :
    List.Sublist (l.filter (fun w => P w && Q w)) (l.filter Q) := by
  induction l with
  | nil => simp
  | cons w l ih =>
    by_cases hq : Q w
    · by_cases hp : P w
      · simpa [List.filter_cons, hp, hq] using ih.cons₂ w
      · simpa [List.filter_cons, hp, hq] using ih.cons w
    · simp only [List.filter_cons, hq, Bool.and_false, if_neg]
      simpa [hq] using ih

theorem repro_inv_weaken (r1 r2 : Nat) (ws : List WriteRec)
    (hinv : ∀ w ∈ ws, (w.sheet = "REPRO controle 1" ∧ r1 + 1 ≤ w.row) ∨
        (w.sheet = "REPRO controle 2" ∧ r2 ≤ w.row)) :
    ∀ w ∈ ws, (w.sheet = "REPRO controle 1" ∧ r1 ≤ w.row) ∨
        (w.sheet = "REPRO controle 2" ∧ r2 ≤ w.row) := by
  intro w hw
  rcases hinv w hw with ⟨hs, hr⟩ | ⟨hs, hr⟩
  · exact Or.inl ⟨hs, Nat.le_of_succ_le hr⟩
  · exact Or.inr ⟨hs, hr⟩

theorem repro_inv_weaken2 (r1 r2 : Nat) (ws : List WriteRec)
    (hinv : ∀ w ∈ ws, (w.sheet = "REPRO controle 1" ∧ r1 ≤ w.row) ∨
        (w.sheet = "REPRO controle 2" ∧ r2 + 1 ≤ w.row)) :
    ∀ w ∈ ws, (w.sheet = "REPRO controle 1" ∧ r1 ≤ w.row) ∨
        (w.sheet = "REPRO controle 2" ∧ r2 ≤ w.row) := by
  intro w hw
  rcases hinv w hw with ⟨hs, hr⟩ | ⟨hs, hr⟩
  · exact Or.inl ⟨hs, hr⟩
  · exact Or.inr ⟨hs, Nat.le_of_succ_le hr⟩

theorem write_repro_loop_spec (cfg : Config) (is_pro : Bool) (tn : String)
    (l : List Meas) :
    ∀ (wb : Workbook) (r1 r2 : Nat) (wbf : Workbook) (a b : Nat)
      (ws : List WriteRec),
      write_repro_loop cfg is_pro tn l wb r1 r2 =
        Except.ok (wbf, a, b, ws) →
      List.Sublist (ws.map WriteRec.meas) l
      ∧ List.Pairwise (fun w w2 => w.sheet = w2.sheet → w.row < w2.row) ws
      ∧ ∀ w ∈ ws, (w.sheet = "REPRO controle 1" ∧ r1 ≤ w.row) ∨
                  (w.sheet = "REPRO controle 2" ∧ r2 ≤ w.row) := by
  induction l with
  | nil =>
    intro wb r1 r2 wbf a b ws h
    simp only [write_repro_loop, Except.ok.injEq, Prod.mk.injEq] at h
    obtain ⟨-, -, -, hws⟩ := h
    subst hws
    simp
  | cons m rest ih =>
    intro wb r1 r2 wbf a b ws h
    simp only [write_repro_loop] at h
    split at h
    · exact absurd h (by simp)
    · rename_i sheet_name hres
      split at h
      · split at h
        · -- column not found: measurement skipped, counters unchanged
          obtain ⟨hsub, hpw, hinv⟩ := ih _ _ _ _ _ _ _ h
          exact ⟨hsub.cons m, hpw, hinv⟩
        · rename_i col hcol
          split at h
          · -- REPRO controle 1 branch
            rename_i h1
            split at h
            · exact absurd h (by simp)
            · rename_i wb3 fin1 fin2 ws2 hrec
              simp only [Except.ok.injEq, Prod.mk.injEq] at h
              obtain ⟨-, -, -, hws⟩ := h
              subst hws
              obtain ⟨hsub, hpw, hinv⟩ := ih _ _ _ _ _ _ _ hrec
              by_cases hw : (update_repro_row wb sheet_name r1 (some col) m).2 = true
              · simp only [hw, if_true, List.singleton_append]
                refine ⟨?_, ?_, ?_⟩
                · exact hsub.cons₂ m
                · refine List.pairwise_cons.mpr ⟨?_, hpw⟩
                  intro w2 hw2 hsheet
                  rcases hinv w2 hw2 with ⟨hc, hle⟩ | ⟨hc, _⟩
                  · exact Nat.lt_of_succ_le hle
                  · have hcontra : "REPRO controle 1" = "REPRO controle 2" := by
                      rw [← h1, ← hc]
                      exact hsheet
                    exact absurd hcontra (by decide)
                · intro w hwmem
                  rcases List.mem_cons.mp hwmem with rfl | hmem
                  · exact Or.inl ⟨h1, Nat.le_refl r1⟩
                  · exact repro_inv_weaken r1 r2 ws2 hinv w hmem
              · simp only [hw, if_false, List.nil_append]
                exact ⟨hsub.cons m, hpw, repro_inv_weaken r1 r2 ws2 hinv⟩
          · split at h
            · -- REPRO controle 2 branch
              rename_i h2
              split at h
              · exact absurd h (by simp)
              · rename_i wb3 fin1 fin2 ws2 hrec
                simp only [Except.ok.injEq, Prod.mk.injEq] at h
                obtain ⟨-, -, -, hws⟩ := h
                subst hws
                obtain ⟨hsub, hpw, hinv⟩ := ih _ _ _ _ _ _ _ hrec
                by_cases hw : (update_repro_row wb sheet_name r2 (some col) m).2 = true
                · simp only [hw, if_true, List.singleton_append]
                  refine ⟨?_, ?_, ?_⟩
                  · exact hsub.cons₂ m
                  · refine List.pairwise_cons.mpr ⟨?_, hpw⟩
                    intro w2 hw2 hsheet
                    rcases hinv w2 hw2 with ⟨hc, _⟩ | ⟨hc, hle⟩
                    · have hcontra : "REPRO controle 2" = "REPRO controle 1" := by
                        rw [← h2, ← hc]
                        exact hsheet
                      exact absurd hcontra (by decide)
                    · exact Nat.lt_of_succ_le hle
                  · intro w hwmem
                    rcases List.mem_cons.mp hwmem with rfl | hmem
                    · exact Or.inr ⟨h2, Nat.le_refl r2⟩
                    · exact repro_inv_weaken2 r1 r2 ws2 hinv w hmem
                · simp only [hw, if_false, List.nil_append]
                  exact ⟨hsub.cons m, hpw, repro_inv_weaken2 r1 r2 ws2 hinv⟩
            · -- neither accumulating sheet: skipped
              obtain ⟨hsub, hpw, hinv⟩ := ih _ _ _ _ _ _ _ h
              exact ⟨hsub.cons m, hpw, hinv⟩
      · exact absurd h (by simp)

/-! ### Claim theorems -/

/-- C3: for measurements sharing a mnemonic, the emit phase writes in
non-decreasing timestamp order within each destination worksheet — any
earlier-emitted cell write to the same sheet has a strictly smaller row
and a timestamp no larger than any later one — and within one sheet and
one timestamp the written measurements keep their original input order
(the chronological sort is stable). -/
theorem repro_output_sorted_and_stable (cfg : Config) (is_pro : Bool)
    (wb : Workbook) (tn : String) (ms : List Meas) :
    List.Pairwise
      (fun w w2 => w.sheet = w2.sheet →
        w.row < w2.row ∧ w.meas.ts ≤ w2.meas.ts)
      (writesOf (write_repro_results_for cfg is_pro wb tn ms))
  ∧ ∀ (s : String) (t : Nat),
      List.Sublist
        (((writesOf (write_repro_results_for cfg is_pro wb tn ms)).filter
            (fun w => (w.sheet == s) && (w.meas.ts == t))).map WriteRec.meas)
        (ms.filter (fun x => x.ts == t)) := by
  rcases hrun : write_repro_results_for cfg is_pro wb tn ms with e | q
  · simp [writesOf]
  · obtain ⟨wbf, a, b, ws⟩ := q
    have hspec := write_repro_loop_spec cfg is_pro tn (sortMeas ms)
      wb REPRO_FIRST_DATA_ROW REPRO_FIRST_DATA_ROW wbf a b ws hrun
    obtain ⟨hsub, hpw, hinv⟩ := hspec
    have hsorted : List.Pairwise measLE (sortMeas ms) :=
      List.sorted_insertionSort measLE ms
    have htsmap : List.Pairwise measLE (ws.map WriteRec.meas) :=
      List.Pairwise.sublist hsub hsorted
    have hts : List.Pairwise (fun w w2 : WriteRec => measLE w.meas w2.meas) ws :=
      List.pairwise_map.mp htsmap
    have hW : writesOf (Except.ok (wbf, a, b, ws)) = ws := rfl
    constructor
    · rw [hW]
      exact (hpw.and hts).imp (fun hx hs => ⟨hx.1 hs, hx.2⟩)
    · intro s t
      rw [hW]
      have h1 : List.Sublist
          ((ws.filter (fun w => (w.sheet == s) && (w.meas.ts == t))).map WriteRec.meas)
          ((ws.filter (fun w => w.meas.ts == t)).map WriteRec.meas) :=
        List.Sublist.map WriteRec.meas
          (filter_and_sublist (fun w => w.sheet == s) (fun w => w.meas.ts == t) ws)
      have h2 : (ws.filter (fun w => w.meas.ts == t)).map WriteRec.meas =
          (ws.map WriteRec.meas).filter (fun x => x.ts == t) :=
        filter_map_meas (fun n => n == t) ws
      have h3 : List.Sublist ((ws.map WriteRec.meas).filter (fun x => x.ts == t))
          ((sortMeas ms).filter (fun x => x.ts == t)) :=
        List.Sublist.filter (fun x => x.ts == t) hsub
      have h4 : (sortMeas ms).filter (fun x => x.ts == t) =
          ms.filter (fun x => x.ts == t) := filter_ts_sortMeas ms t
      rw [h2] at h1
      rw [h4] at h3
      exact h1.trans h3

/-- Folding the collection step over the rows ignores every row whose QC
material is excluded. -/
theorem build_fold_skips_excluded (skip_hiv : List String) (is_pro : Bool)
    (an : Option Nat) (tm : List String) :
    ∀ (rows : List ReproRow) (acc : String → List Meas),
      rows.foldl (build_repro_step skip_hiv is_pro an tm) acc =
      (rows.filter (fun r => decide (r.qc_material ∉ skip_hiv))).foldl
        (build_repro_step skip_hiv is_pro an tm) acc := by
  intro rows
  induction rows with
  | nil => intro acc; rfl
  | cons r rest ih =>
    intro acc
    by_cases hmem : r.qc_material ∈ skip_hiv
    · have hstep : build_repro_step skip_hiv is_pro an tm acc r = acc := by
        rcases r with ⟨date, qc, anl, vals⟩
        simp only at hmem
        cases date <;> simp [build_repro_step, hmem]
      have hfilter : (r :: rest).filter
            (fun r => decide (r.qc_material ∉ skip_hiv)) =
          rest.filter (fun r => decide (r.qc_material ∉ skip_hiv)) := by
        simp [List.filter_cons, hmem]
      rw [hfilter, List.foldl_cons, hstep]
      exact ih acc
    · have hfilter : (r :: rest).filter
            (fun r => decide (r.qc_material ∉ skip_hiv)) =
          r :: rest.filter (fun r => decide (r.qc_material ∉ skip_hiv)) := by
        simp [List.filter_cons, hmem]
      rw [hfilter, List.foldl_cons, List.foldl_cons]
      exact ih (build_repro_step skip_hiv is_pro an tm acc r)

/-- C9: a reproducibility record whose QC material is in the excluded
set contributes no measurement at all — the collection step leaves the
accumulator unchanged on such a row, and the collected measurement table
is the same as if all excluded rows had been removed from the input —
so an excluded record can never produce a placement or a write. -/
theorem excluded_qc_material_never_collected (skip_hiv : List String)
    (is_pro : Bool) (an : Option Nat) (tm : List String) :
    (∀ (acc : String → List Meas) (row : ReproRow),
      row.qc_material ∈ skip_hiv →
      build_repro_step skip_hiv is_pro an tm acc row = acc)
  ∧ (∀ rows : List ReproRow,
      build_repro_measurements skip_hiv is_pro an tm rows =
      build_repro_measurements skip_hiv is_pro an tm
        (rows.filter (fun r => decide (r.qc_material ∉ skip_hiv)))) := by
  constructor
  · intro acc row hmem
    rcases row with ⟨date, qc, anl, vals⟩
    simp only at hmem
    cases date <;> simp [build_repro_step, hmem]
  · intro rows
    simp only [build_repro_measurements]
    exact build_fold_skips_excluded skip_hiv is_pro an tm rows (fun _ => [])

/-- Witness for the C9 theorem at a concrete excluded record. -/
theorem excluded_qc_material_never_collected_witness :
    build_repro_step ["VLK_PC_HIV_2"] true none ["t"] (fun _ => [])
      (ReproRow.mk (some 1) "VLK_PC_HIV_2" "a" [some "5"]) = (fun _ => []) :=
  (excluded_qc_material_never_collected ["VLK_PC_HIV_2"] true none ["t"]).1
    (fun _ => []) (ReproRow.mk (some 1) "VLK_PC_HIV_2" "a" [some "5"])
    (by decide)

/-- C1 (against the code): when the testrun id is not a key of the
offset map, process_skml does not fall back to the default offset — it
skips the whole row, writing nothing — even though the (unused) helper
get_testrun_column_offset would resolve the same testrun to
DEFAULT_TESTRUN_OFFSET as the claim describes. -/
theorem unknown_testrun_row_dropped (cfg : Config) (wb : Workbook)
    (tm : List String) (patient_id testrun_raw : String)
    (values : List (Option String))
    (h : cfg.offset_map.lookup (strLower testrun_raw) = none) :
    process_skml_row cfg wb tm patient_id testrun_raw values = Except.ok wb
  ∧ get_testrun_column_offset cfg.offset_map (strLower testrun_raw) =
      DEFAULT_TESTRUN_OFFSET := by
  constructor
  · simp [process_skml_row, h]
  · simp [get_testrun_column_offset, h]

/-- Witness for the C1 theorem: a concrete row with an unknown testrun
and a known chemistry value is dropped whole. -/
theorem unknown_testrun_row_dropped_witness :
    process_skml_row cfgDemo wbBlank ["k_alb"] "8000-1" "v_unknown"
        [some "1.5"] = Except.ok wbBlank
  ∧ get_testrun_column_offset cfgDemo.offset_map (strLower "v_unknown") =
      DEFAULT_TESTRUN_OFFSET :=
  unknown_testrun_row_dropped cfgDemo wbBlank ["k_alb"] "8000-1" "v_unknown"
    [some "1.5"] (by decide)

/-- C4 (amended): update_excel_cell is first-write-wins for every
non-empty first value: after a successful write of v1 with v1 nonempty,
a second call with any value is a no-op, and more generally a call on a
cell holding any non-empty value is a no-op.  (Writing the empty string
is the one exception, covered by the counterexample.) -/
theorem write_if_empty_first_write_wins (wb : Workbook) (s : String)
    (r c : Nat) (v1 v2 : String) (h1 : v1 ≠ "")
    (h2 : (update_excel_cell wb s r c v1).2 = true) :
    update_excel_cell (update_excel_cell wb s r c v1).1 s r c v2 =
      ((update_excel_cell wb s r c v1).1, false)
  ∧ ∀ (wb2 : Workbook) (v : String), wb2.cells s r c = some v → v ≠ "" →
      update_excel_cell wb2 s r c v2 = (wb2, false) := by
  constructor
  · by_cases hs : s ∈ wb.sheetnames
    · by_cases he : cellIsEmpty (wb.cells s r c) = true
      · have hu : update_excel_cell wb s r c v1 =
            ({ wb with cells := fun s1 r1 c1 =>
                if s1 = s ∧ r1 = r ∧ c1 = c then some v1
                else wb.cells s1 r1 c1 }, true) := by
          simp [update_excel_cell, hs, he]
        rw [hu]
        simp [update_excel_cell, hs, cellIsEmpty, h1]
      · exfalso
        simp [update_excel_cell, hs, he] at h2
    · exfalso
      simp [update_excel_cell, hs] at h2
  · intro wb2 v hv hne
    by_cases hs2 : s ∈ wb2.sheetnames <;>
      simp [update_excel_cell, hs2, hv, cellIsEmpty, hne]

/-- C4 counterexample: the first successful call may write the empty
string; the cell then still counts as empty, so a second call does
change the cell — the claim fails for v1 equal to the empty string. -/
theorem empty_string_write_not_protected :
    (update_excel_cell wbBlank "Blad1" 1 1 "").2 = true
  ∧ (update_excel_cell (update_excel_cell wbBlank "Blad1" 1 1 "").1
        "Blad1" 1 1 "x").1.cells "Blad1" 1 1 = some "x"
  ∧ ("x" : String) ≠ "" := by
  refine ⟨by decide, by decide, by decide⟩

/-- Witness for the C4 theorem at a concrete cell. -/
theorem write_if_empty_first_write_wins_witness :
    update_excel_cell (update_excel_cell wbBlank "Blad1" 1 1 "a").1
        "Blad1" 1 1 "b" =
      ((update_excel_cell wbBlank "Blad1" 1 1 "a").1, false) :=
  (write_if_empty_first_write_wins wbBlank "Blad1" 1 1 "a" "b" (by decide)
    (by decide)).1

/-- Mapping the full-stop replacement over characters containing no full
stop is the identity. -/
theorem map_dot_id : ∀ (l : List Char), '.' ∉ l →
    l.map (fun c => if c == '.' then ',' else c) = l
  | [], _ => rfl
  | c :: t, h => by
    simp only [List.mem_cons, not_or] at h
    have hc : ¬((c == '.') = true) := by
      simp only [beq_iff_eq]
      exact fun hh => h.1 hh.symm
    rw [List.map_cons, if_neg hc, map_dot_id t h.2]

/-- C6 (amended): the conversion applied to every written value replaces
every full stop by a comma: values without a full stop pass through
unchanged, the decimal string 1.5 becomes 1,5, and no converted value
contains a full stop — so non-numeric strings containing a full stop are
also rewritten, not passed through. -/
theorem decimal_separator_conversion :
    (∀ s : String, '.' ∉ s.data → convertDecimal s = s)
  ∧ convertDecimal "1.5" = "1,5"
  ∧ ∀ s : String, '.' ∉ (convertDecimal s).data := by
  refine ⟨?_, by decide, ?_⟩
  · intro s h
    obtain ⟨l⟩ := s
    exact congrArg String.mk (map_dot_id l h)
  · intro s hmem
    rcases List.mem_map.mp hmem with ⟨c, -, hc⟩
    by_cases hcc : c == '.'
    · rw [if_pos hcc] at hc
      exact absurd hc (by decide)
    · rw [if_neg hcc] at hc
      exact absurd hcc (by simp [hc])

/-- C6 counterexample: the non-numeric string n.a. does not pass through
unchanged — every full stop in it is replaced. -/
theorem nonnumeric_dot_string_rewritten :
    convertDecimal "n.a." = "n,a," ∧ ("n,a," : String) ≠ "n.a." := by
  constructor <;> decide

/-- Witness for the C6 theorem at concrete values. -/
theorem decimal_separator_conversion_witness :
    convertDecimal "abc" = "abc" ∧ convertDecimal "1.5" = "1,5" :=
  ⟨decimal_separator_conversion.1 "abc" (by decide),
   decimal_separator_conversion.2.1⟩

/-- C7: get_sheet_and_column_base is total and case-insensitive: a
mnemonic in the chemistry list (case-insensitively) resolves to the
chemistry sheet, otherwise a mnemonic in the immunoassay list resolves
to the immunoassay sheet, anything else resolves to nothing; the base
column is picked among the four constants by whether the instrument
identifier contains 8000; and any two mnemonics equal up to case resolve
identically. -/
theorem resolve_non_repro_case_insensitive_total
    (mnemonic patient_id : String) (c_codes e_codes : List String) :
    (strLower mnemonic ∈ c_codes.map strLower →
      get_sheet_and_column_base mnemonic patient_id c_codes e_codes =
        some (C_MODULE_SHEET_INDEX,
          if strContains patient_id "8000" then C_MODULE_BASE_OFFSET_8000
          else C_MODULE_BASE_OFFSET_PRO))
  ∧ (strLower mnemonic ∉ c_codes.map strLower →
      strLower mnemonic ∈ e_codes.map strLower →
      get_sheet_and_column_base mnemonic patient_id c_codes e_codes =
        some (E_MODULE_SHEET_INDEX,
          if strContains patient_id "8000" then E_MODULE_BASE_OFFSET_8000
          else E_MODULE_BASE_OFFSET_PRO))
  ∧ (strLower mnemonic ∉ c_codes.map strLower →
      strLower mnemonic ∉ e_codes.map strLower →
      get_sheet_and_column_base mnemonic patient_id c_codes e_codes = none)
  ∧ (∀ m2, strLower m2 = strLower mnemonic →
      get_sheet_and_column_base m2 patient_id c_codes e_codes =
        get_sheet_and_column_base mnemonic patient_id c_codes e_codes) := by
  refine ⟨?_, ?_, ?_, ?_⟩
  · intro h
    simp [get_sheet_and_column_base, h]
  · intro hc he
    simp [get_sheet_and_column_base, hc, he]
  · intro hc he
    simp [get_sheet_and_column_base, hc, he]
  · intro m2 h
    simp [get_sheet_and_column_base, h]

/-- Witness for the C7 theorem: a chemistry mnemonic in different case
on a Cobas 8000 instrument. -/
theorem resolve_non_repro_case_insensitive_total_witness :
    get_sheet_and_column_base "K_ALB" "8000-1" ["k_alb"] [] =
      some (C_MODULE_SHEET_INDEX,
        if strContains "8000-1" "8000" then C_MODULE_BASE_OFFSET_8000
        else C_MODULE_BASE_OFFSET_PRO) :=
  (resolve_non_repro_case_insensitive_total "K_ALB" "8000-1" ["k_alb"] []).1
    (by decide)

/-- C10 (implicit): reproducibility sheet resolution is case-sensitive
on QC materials — a material differing only in letter case from the
configured tier entry VLK_Foo raises an unknown-material error instead
of resolving to that tier's sheet — while mnemonic resolution is
case-insensitive on the same spelling variation. -/
theorem repro_resolution_case_sensitivity_contrast :
    determine_repro_sheet true cfgCase "VLK_Foo" "a" =
      Except.ok "REPRO controle 1"
  ∧ determine_repro_sheet true cfgCase "vlk_foo" "a" =
      Except.error ("Unknown QC material: " ++ "vlk_foo")
  ∧ get_sheet_and_column_base "VLK_FOO" "p" ["vlk_foo"] [] =
      get_sheet_and_column_base "vlk_foo" "p" ["vlk_foo"] []
  ∧ get_sheet_and_column_base "vlk_foo" "p" ["vlk_foo"] [] =
      some (C_MODULE_SHEET_INDEX, C_MODULE_BASE_OFFSET_PRO) := by
  refine ⟨by decide, by decide, by decide, by decide⟩

/-- C2 (amended): the HIV override reassigns the sheet for exactly the
four documented (mnemonic, qcMaterial) pairs, ignoring whatever sheet
the tier logic chose, and leaves every other pair unchanged; whenever
tier resolution succeeds on VLK_PC_HIV_3 or VLK_PC_HIV_5 — whichever
sheet it yields — the m_ahiv_eclia_ser measurement is routed to REPRO
controle 1, respectively REPRO controle 2.  (When the material is in no
tier table, resolution raises before the override applies: see the
counterexample.) -/
theorem hiv_override_precedence (cfg : Config) (an d : String) :
    apply_hiv_sheet_override "m_ahiv_eclia_ser" "VLK_PC_HIV_3" d =
      "REPRO controle 1"
  ∧ apply_hiv_sheet_override "m_hivag_eclia_ser" "VLK_PC_HIV_3" d =
      "REPRO controle 2"
  ∧ apply_hiv_sheet_override "m_ahiv_eclia_ser" "VLK_PC_HIV_5" d =
      "REPRO controle 2"
  ∧ apply_hiv_sheet_override "m_hivag_eclia_ser" "VLK_PC_HIV_5" d =
      "REPRO controle 1"
  ∧ (∀ t q, (t, q) ∉ ([("m_ahiv_eclia_ser", "VLK_PC_HIV_3"),
        ("m_hivag_eclia_ser", "VLK_PC_HIV_3"),
        ("m_ahiv_eclia_ser", "VLK_PC_HIV_5"),
        ("m_hivag_eclia_ser", "VLK_PC_HIV_5")] : List (String × String)) →
      apply_hiv_sheet_override t q d = d)
  ∧ (∀ s, determine_repro_sheet true cfg "VLK_PC_HIV_3" an = Except.ok s →
      resolve_measurement_sheet cfg true "m_ahiv_eclia_ser" "VLK_PC_HIV_3"
        an = Except.ok "REPRO controle 1")
  ∧ (∀ s, determine_repro_sheet true cfg "VLK_PC_HIV_5" an = Except.ok s →
      resolve_measurement_sheet cfg true "m_ahiv_eclia_ser" "VLK_PC_HIV_5"
        an = Except.ok "REPRO controle 2") := by
  refine ⟨by simp [apply_hiv_sheet_override],
    by simp [apply_hiv_sheet_override],
    by simp [apply_hiv_sheet_override],
    by simp [apply_hiv_sheet_override], ?_, ?_, ?_⟩
  · intro t q h
    simp only [List.mem_cons, List.not_mem_nil, or_false, Prod.mk.injEq,
      not_or] at h
    obtain ⟨h1, h2, h3, h4⟩ := h
    simp [apply_hiv_sheet_override, h1, h2, h3, h4]
  · intro s h
    simp [resolve_measurement_sheet, h, apply_hiv_sheet_override]
  · intro s h
    simp [resolve_measurement_sheet, h, apply_hiv_sheet_override]

/-- C2 counterexample: when the tier tables do not contain VLK_PC_HIV_3,
the m_ahiv_eclia_ser measurement is not routed to REPRO controle 1 —
tier resolution raises first, so the routing does depend on the tier
tables' contents. -/
theorem hiv_routing_depends_on_tier_tables :
    resolve_measurement_sheet cfgEmpty true "m_ahiv_eclia_ser"
      "VLK_PC_HIV_3" "VLK_PRO-3_C503" ≠ Except.ok "REPRO controle 1" := by
  decide

/-- Witness for the C2 theorem: with both HIV materials configured in
the Pro high tier, the override still routes m_ahiv_eclia_ser with
VLK_PC_HIV_3 to REPRO controle 1 (the tier logic said controle 2), and
an unrelated pair is left at the tier-resolved sheet. -/
theorem hiv_override_precedence_witness :
    resolve_measurement_sheet cfgDemo true "m_ahiv_eclia_ser"
      "VLK_PC_HIV_3" "a" = Except.ok "REPRO controle 1"
  ∧ apply_hiv_sheet_override "k_alb" "VLK_X" "D" = "D" :=
  ⟨(hiv_override_precedence cfgDemo "a" "D").2.2.2.2.2.1 "REPRO controle 2"
      (by decide),
   (hiv_override_precedence cfgDemo "a" "D").2.2.2.2.1 "k_alb" "VLK_X"
      (by decide)⟩

/-- C8: during reproducibility sheet resolution a QC material that is
not an interference material, in no tier table, and without either
substring marker raises an unknown-material error; an interference
material with an unrecognised analyser raises an unknown-analyser
error; and such an error propagates out of the per-measurement emit
loop, halting the whole batch instead of skipping the record. -/
theorem classification_error_halts_batch (cfg : Config) (is_pro : Bool)
    (qc an tn : String) (wb : Workbook) (m : Meas) (rest : List Meas)
    (r1 r2 : Nat) (e : String) :
    (qc ∉ (["VLK_Hemolyse", "VLK_Ict-V", "VLK_Lip-V"] : List String) →
      qc ∉ cfg.qc_material_pro_low → qc ∉ cfg.qc_material_low →
      qc ∉ cfg.qc_material_pro_high → qc ∉ cfg.qc_material_high →
      strContains qc "VLK_Bil" = false → strContains qc "VLK_Vrij" = false →
      determine_repro_sheet true cfg qc an =
        Except.error ("Unknown QC material: " ++ qc))
  ∧ (qc ∈ (["VLK_Hemolyse", "VLK_Ict-V", "VLK_Lip-V"] : List String) →
      an ∉ (["VLK_PRO-4_C503", "VLK_PRO-3_C503"] : List String) →
      an ∉ (["VLK_PRO-4_C703", "VLK_PRO-3_C703"] : List String) →
      an ≠ "VLK_C500PRO-01" →
      determine_repro_sheet is_pro cfg qc an =
        Except.error ("Unknown analyser " ++ an ++
          " for special QC material: " ++ qc))
  ∧ (determine_repro_sheet is_pro cfg m.qc_material m.analyser =
        Except.error e →
      write_repro_loop cfg is_pro tn (m :: rest) wb r1 r2 =
        Except.error e) := by
  refine ⟨?_, ?_, ?_⟩
  · intro hi hl1 hl2 hh1 hh2 hb1 hb2
    simp [determine_repro_sheet, hi, hl1, hl2, hh1, hh2, hb1, hb2]
  · intro hi ha1 ha2 ha3
    simp [determine_repro_sheet, hi, ha1, ha2, ha3]
  · intro h
    simp [write_repro_loop, resolve_measurement_sheet, h]

/-- Witness for the C8 theorem: a concrete unknown material halts a
one-measurement batch. -/
theorem classification_error_halts_batch_witness :
    determine_repro_sheet true cfgEmpty "QX" "a" =
      Except.error ("Unknown QC material: " ++ "QX")
  ∧ write_repro_loop cfgEmpty true "t" [Meas.mk 1 "v" "QX" "a"] wbBlank 3 3 =
      Except.error ("Unknown QC material: " ++ "QX") :=
  ⟨(classification_error_halts_batch cfgEmpty true "QX" "a" "t" wbBlank
      (Meas.mk 1 "v" "QX" "a") [] 3 3 ("Unknown QC material: " ++ "QX")).1
      (by decide) (by decide) (by decide) (by decide) (by decide)
      (by decide) (by decide),
   (classification_error_halts_batch cfgEmpty true "QX" "a" "t" wbBlank
      (Meas.mk 1 "v" "QX" "a") [] 3 3 ("Unknown QC material: " ++ "QX")).2.2
      (by decide)⟩

/-- C5 (amended): the running row counter of a destination worksheet
advances exactly when a measurement resolves to that worksheet and its
column is found — independently of whether the cell write succeeds: a
measurement whose column lookup fails leaves both counters untouched,
but one whose target cell is already occupied still advances the
counter although nothing is written (see the counterexample); and the
third worksheet receives no sequential-row writes from this process. -/
theorem repro_counter_increment_semantics (cfg : Config) (is_pro : Bool)
    (tn : String) (m : Meas) (rest : List Meas) (wb : Workbook)
    (r1 r2 : Nat) (ms : List Meas) :
    (∀ s, resolve_measurement_sheet cfg is_pro tn m.qc_material
        m.analyser = Except.ok s →
      s ∈ wb.sheetnames →
      get_repro_test_column wb s tn = none →
      write_repro_loop cfg is_pro tn (m :: rest) wb r1 r2 =
        write_repro_loop cfg is_pro tn rest wb r1 r2)
  ∧ (∀ col, resolve_measurement_sheet cfg is_pro tn m.qc_material
        m.analyser = Except.ok "REPRO controle 1" →
      "REPRO controle 1" ∈ wb.sheetnames →
      get_repro_test_column wb "REPRO controle 1" tn = some col →
      cellIsEmpty (wb.cells "REPRO controle 1" r1 col) = false →
      write_repro_loop cfg is_pro tn (m :: rest) wb r1 r2 =
        write_repro_loop cfg is_pro tn rest wb (r1 + 1) r2)
  ∧ (∀ w ∈ writesOf (write_repro_results_for cfg is_pro wb tn ms),
      w.sheet ≠ "REPRO controle 3") := by
  refine ⟨?_, ?_, ?_⟩
  · intro s hres hsheet hcol
    simp [write_repro_loop, hres, hsheet, hcol]
  · intro col hres hsheet hcol hcell
    have hupd : update_repro_row wb "REPRO controle 1" r1 (some col) m =
        (wb, false) := by
      simp [update_repro_row, update_excel_cell, hsheet, hcell]
    simp only [write_repro_loop, hres, hsheet, if_true, hcol, hupd]
    cases hrec : write_repro_loop cfg is_pro tn rest wb (r1 + 1) r2 with
    | error e => simp [hrec]
    | ok q =>
      obtain ⟨wb3, fin1, fin2, ws⟩ := q
      simp [hrec]
  · rcases hrun : write_repro_results_for cfg is_pro wb tn ms with e | q
    · simp [writesOf]
    · obtain ⟨wbf, a, b, ws⟩ := q
      have hspec := write_repro_loop_spec cfg is_pro tn (sortMeas ms)
        wb REPRO_FIRST_DATA_ROW REPRO_FIRST_DATA_ROW wbf a b ws hrun
      intro w hw
      rcases hspec.2.2 w hw with ⟨hs, -⟩ | ⟨hs, -⟩ <;> rw [hs] <;> decide

/-- C5 counterexample: with the first data cell of REPRO controle 1
already occupied, the skipped first measurement still advances the
counter — the only successful write lands on row 4, not row 3, and the
controle-1 counter ends at 5 after two measurements with a single
successful write. -/
theorem skipped_write_still_advances_counter :
    writesOf (write_repro_results_for cfgDemo true wbReproOccupied "t"
        msTwo) =
      [WriteRec.mk "REPRO controle 1" 4 1 (Meas.mk 2 "two" "QL" "a")]
  ∧ countersOf (write_repro_results_for cfgDemo true wbReproOccupied "t"
        msTwo) = (5, 3) := by
  constructor <;> decide

/-- Witness for the C5 theorem: the occupied-cell step equation at a
concrete state, and a concrete missing-column skip. -/
theorem repro_counter_increment_semantics_witness :
    write_repro_loop cfgDemo true "t"
        [Meas.mk 1 "one" "QL" "a", Meas.mk 2 "two" "QL" "a"]
        wbReproOccupied 3 3 =
      write_repro_loop cfgDemo true "t" [Meas.mk 2 "two" "QL" "a"]
        wbReproOccupied 4 3
  ∧ write_repro_loop cfgDemo true "none" [Meas.mk 1 "one" "QL" "a"]
        wbReproOccupied 3 3 =
      write_repro_loop cfgDemo true "none" ([] : List Meas)
        wbReproOccupied 3 3 :=
  ⟨(repro_counter_increment_semantics cfgDemo true "t"
      (Meas.mk 1 "one" "QL" "a") [Meas.mk 2 "two" "QL" "a"]
      wbReproOccupied 3 3 []).2.1 1 (by decide) (by decide) (by decide)
      (by decide),
   (repro_counter_increment_semantics cfgDemo true "none"
      (Meas.mk 1 "one" "QL" "a") [] wbReproOccupied 3 3 []).1
      "REPRO controle 1" (by decide) (by decide) (by decide)⟩
